import Mathlib

/-!
Shallow embedding of the Helios Event System (src/Source/EventSystem.hpp).

The C++ code is a single-threaded, header-only event system:
  * an enumeration `EventType` of type tags (`Type_None = -1` is the sentinel),
  * a class hierarchy of event variants rooted at `IEvent` (modelled here as a
    closed inductive `Event`; a plain `IEvent` instance is the constructor
    `Event.IEventBase`, whose `GetType` is `Type_None`),
  * `EventSystem` with static state: `sEventBus : queue<pair<any, EventType>>`
    and `sEventListeners : vector<EventListener>`,
  * `AddEvent` pushes `(e, e.GetType())` at the tail of the bus,
  * `AddEventListener` pushes a callback at the tail of the registry,
  * `Dispatch` runs `for (int i = 0; i <= sEventBus.size() + 1; i++)`, reads
    `sEventBus.front()`, switches on the stored tag (any_cast to the concrete
    class and iterate through all listeners; `default: __debugbreak()`), and
    then pops the front,
  * `EventDispatcher(e).Dispatch<T>(func)` calls `func` on the narrowed event
    exactly when `e.GetType() == T::GetStaticType()`.

Listeners are modelled abstractly by identifiers (`Nat`); invoking listener
`l` on event `e` is recorded as the pair `(l, e)` in an invocation trace.
Reading `front()` of an empty queue (undefined behaviour in C++), a failing
`any_cast` (thrown exception) and `__debugbreak()` (trap) are modelled as
abnormal outcomes that stop the dispatch loop immediately.
-/

namespace Helios

/-- The `EventType` enumeration of EventSystem.hpp; `Type_None` is the
sentinel (`-1` in the source). -/
inductive EventType where
  | Type_None
  | Type_WindowCreate
  | Type_WindowDestroy
  | Type_WindowMove
  | Type_WindowResize
  | Type_MouseMove
  | Type_MouseScroll
  | Type_MouseButtonClick
  | Type_MouseButtonRelease
  | Type_KeyPress
  | Type_KeyRelease
  | Type_KeyType
  deriving DecidableEq, Repr

/-- The closed set of event values: one constructor per concrete event class
of EventSystem.hpp, carrying exactly that class's payload fields.
`IEventBase` stands for a plain `IEvent` instance (no payload, sentinel
tag). -/
inductive Event where
  | IEventBase
  | WindowCreateEvent (showMode : Int)
  | WindowDestroyEvent
  | WindowMoveEvent (x y : Int)
  | WindowResizeEvent (width height : Int)
  | MouseMoveEvent (x y : Int)
  | MouseScrollEvent (offset : Int)
  | MouseButtonClickEvent (button : Int) (control shift alt : Bool)
  | MouseButtonReleaseEvent (button : Int) (control shift alt : Bool)
  | KeyPressEvent (key : Int) (control shift alt : Bool)
  | KeyReleaseEvent (key : Int) (control shift alt : Bool)
  | KeyTypeEvent (c : Char)
  deriving DecidableEq, Repr

/-- `GetType`: the virtual tag accessor; each concrete class returns its
static tag (the `HELIOS_EVENT_CLASS_TYPE` macro), the base `IEvent`
returns `Type_None`. -/
def Event.GetType : Event → EventType
  | .IEventBase => .Type_None
  | .WindowCreateEvent _ => .Type_WindowCreate
  | .WindowDestroyEvent => .Type_WindowDestroy
  | .WindowMoveEvent _ _ => .Type_WindowMove
  | .WindowResizeEvent _ _ => .Type_WindowResize
  | .MouseMoveEvent _ _ => .Type_MouseMove
  | .MouseScrollEvent _ => .Type_MouseScroll
  | .MouseButtonClickEvent _ _ _ _ => .Type_MouseButtonClick
  | .MouseButtonReleaseEvent _ _ _ _ => .Type_MouseButtonRelease
  | .KeyPressEvent _ _ _ _ => .Type_KeyPress
  | .KeyReleaseEvent _ _ _ _ => .Type_KeyRelease
  | .KeyTypeEvent _ => .Type_KeyType

/-- `GetCategory`: virtual category accessor (bitmask values from the
`EventCategory` enum; `Category_None = -1`). Advisory metadata only. -/
def Event.GetCategory : Event → Int
  | .IEventBase => -1
  | .WindowCreateEvent _ => 1
  | .WindowDestroyEvent => 1
  | .WindowMoveEvent _ _ => 1
  | .WindowResizeEvent _ _ => 1
  | .MouseMoveEvent _ _ => 2
  | .MouseScrollEvent _ => 2
  | .MouseButtonClickEvent _ _ _ _ => 4
  | .MouseButtonReleaseEvent _ _ _ _ => 4
  | .KeyPressEvent _ _ _ _ => 8
  | .KeyReleaseEvent _ _ _ _ => 8
  | .KeyTypeEvent _ => 8

/-- Which tags have a `case` branch in the `switch` of
`EventSystem::Dispatch`. All eleven concrete tags are wired in; only the
sentinel `Type_None` falls to `default: __debugbreak()`. -/
def hasDispatchCase : EventType → Bool
  | .Type_WindowCreate => true
  | .Type_WindowDestroy => true
  | .Type_WindowMove => true
  | .Type_WindowResize => true
  | .Type_KeyPress => true
  | .Type_KeyRelease => true
  | .Type_KeyType => true
  | .Type_MouseScroll => true
  | .Type_MouseMove => true
  | .Type_MouseButtonClick => true
  | .Type_MouseButtonRelease => true
  | .Type_None => false

/-- `EventSystem::IterateThroughEventListeners`: calls every registered
listener on `e`, in registry order. The invocation of listener `l` on `e`
is recorded as `(l, e)`. -/
def IterateThroughEventListeners (listeners : List Nat) (e : Event) :
    List (Nat × Event) :=
  listeners.map (fun l => (l, e))

/-- How one call to `EventSystem::Dispatch` can end: normal loop exit,
`front()` on an empty queue (undefined behaviour / crash), a thrown
`std::bad_any_cast` (stored tag does not match the stored value), or the
`default: __debugbreak()` trap. -/
inductive DispatchOutcome where
  | completed
  | frontOfEmpty
  | badAnyCast
  | debugBreak
  deriving DecidableEq, Repr

/-- Result of a `Dispatch` call: how it ended, the entries still in the bus,
the entries that were dequeued and delivered (in delivery order), and the
full trace of listener invocations. -/
structure DispatchResult where
  outcome : DispatchOutcome
  remaining : List (Event × EventType)
  dispatched : List (Event × EventType)
  trace : List (Nat × Event)
  deriving DecidableEq, Repr

/-- The loop body of `EventSystem::Dispatch`:

    for (int i = 0; i <= sEventBus.size() + 1; i++) {
        auto& event = sEventBus.front();
        switch (event.second) { ...cases...; default: __debugbreak(); }
        sEventBus.pop();
    }

`i` is the loop counter; the bound `sEventBus.size() + 1` is re-evaluated
every iteration against the shrinking queue, exactly as in the source. -/
def dispatchLoop (listeners : List Nat) :
    Nat → List (Event × EventType) → DispatchResult
  | i, [] =>
    if i ≤ ([] : List (Event × EventType)).length + 1 then
      ⟨.frontOfEmpty, [], [], []⟩
    else
      ⟨.completed, [], [], []⟩
  | i, (e, t) :: rest =>
    if i ≤ ((e, t) :: rest).length + 1 then
      if hasDispatchCase t then
        if e.GetType = t then
          let r := dispatchLoop listeners (i + 1) rest
          ⟨r.outcome, r.remaining, (e, t) :: r.dispatched,
            IterateThroughEventListeners listeners e ++ r.trace⟩
        else
          ⟨.badAnyCast, (e, t) :: rest, [], []⟩
      else
        ⟨.debugBreak, (e, t) :: rest, [], []⟩
    else
      ⟨.completed, (e, t) :: rest, [], []⟩

/-- The static state of `EventSystem`: the event bus, the listener registry,
and the capacity of the `std::vector` holding the registry (the only thing
`Init` touches). -/
structure EventSystemState where
  sEventBus : List (Event × EventType)
  sEventListeners : List Nat
  listenerCapacity : Nat
  deriving DecidableEq, Repr

/-- `EventSystem::Init`: `sEventListeners.reserve(69)` — grows the vector
capacity to at least 69, nothing else. -/
def EventSystem.Init (s : EventSystemState) : EventSystemState :=
  { s with listenerCapacity := max s.listenerCapacity 69 }

/-- `EventSystem::AddEvent`: `sEventBus.push({ e, e.GetType() })` — appends
a copy of `e` paired with its tag at the tail of the bus. -/
def EventSystem.AddEvent (s : EventSystemState) (e : Event) :
    EventSystemState :=
  { s with sEventBus := s.sEventBus ++ [(e, e.GetType)] }

/-- `EventSystem::AddEventListener`: `sEventListeners.push_back(e)` —
appends the callback at the tail of the registry (growing the vector's
capacity when full). -/
def EventSystem.AddEventListener (s : EventSystemState) (l : Nat) :
    EventSystemState :=
  { s with
    sEventListeners := s.sEventListeners ++ [l]
    listenerCapacity := max s.listenerCapacity (s.sEventListeners.length + 1) }

/-- `EventSystem::Dispatch`: run the dispatch loop from `i = 0` on the
current bus with the current listeners. -/
def EventSystem.Dispatch (s : EventSystemState) : DispatchResult :=
  dispatchLoop s.sEventListeners 0 s.sEventBus

/-- `EventDispatcher::Dispatch<T>(func)`: if the wrapped event's dynamic tag
equals `T`'s static tag (`target`), call `func` on the event narrowed to
`T` (the handler receives the event itself and, holding a reference, may
replace it); otherwise do nothing. Returns the list of arguments `func`
was called with, and the final value of the wrapped event. -/
def EventDispatcher.Dispatch (e : Event) (target : EventType)
    (func : Event → Event) : List Event × Event :=
  if e.GetType = target then ([e], func e) else ([], e)

/-- The two function-local `static` objects inside each `ToString` body:

    static std::ostringstream oss;
    oss << ...fields...;
    static std::string s = oss.str();
    return s;

`oss` is the accumulated contents of the static stream for that class;
`s` is `none` before the first call of that class's `ToString` and is
initialized exactly once, on the first call. -/
structure ToStringStatics where
  oss : String
  s : Option String
  deriving DecidableEq, Repr

/-- The fresh per-class statics before any call: empty stream, `s` not yet
initialized. -/
def ToStringStatics.initial : ToStringStatics := ⟨"", none⟩

/-- `operator<<` on a `bool` in default stream formatting: `1` / `0`. -/
def streamBool (b : Bool) : String := if b then "1" else "0"

/-- The text one execution of `KeyPressEvent::ToString`'s insertion
statement writes into the stream for an instance with the given fields. -/
def keyPressRender (key : Int) (control shift alt : Bool) : String :=
  "[Event:KeyPress]: Key: (" ++ toString key ++ "), Control: (" ++
    streamBool control ++ "), Shift: (" ++ streamBool shift ++ "), Alt: (" ++
    streamBool alt ++ ")\n"

/-- `KeyPressEvent::ToString` on an instance with the given fields: append
this instance's rendering to the class's static stream, initialize the
static string from the stream on the first call only, and return the
static string. Returns the updated statics and the returned string. -/
def Event.KeyPressEvent.ToStringRun (st : ToStringStatics) (key : Int)
    (control shift alt : Bool) : ToStringStatics × String :=
  let oss := st.oss ++ keyPressRender key control shift alt
  match st.s with
  | none => (⟨oss, some oss⟩, oss)
  | some str => (⟨oss, some str⟩, str)

/-- The text one execution of `WindowCreateEvent::ToString`'s insertion
statement writes into the stream. -/
def windowCreateRender (showMode : Int) : String :=
  "[Event:WindowCreate]: ShowMode: (" ++ toString showMode ++ ")\n"

/-- `WindowCreateEvent::ToString`, with the same static-local structure as
`KeyPressEvent::ToString`. -/
def Event.WindowCreateEvent.ToStringRun (st : ToStringStatics)
    (showMode : Int) : ToStringStatics × String :=
  let oss := st.oss ++ windowCreateRender showMode
  match st.s with
  | none => (⟨oss, some oss⟩, oss)
  | some str => (⟨oss, some str⟩, str)

/-- The calls a client can make on `EventSystem` after setup. -/
inductive Op where
  | addEvent (e : Event)
  | addListener (l : Nat)
  | dispatchAll
  | init
  deriving DecidableEq, Repr

/-- One API call: the state afterwards, plus the `DispatchResult` when the
call was a `Dispatch` (the C++ `Dispatch` leaves the undispatched entries
in `sEventBus`). -/
def step (s : EventSystemState) : Op → EventSystemState × Option DispatchResult
  | .addEvent e => (EventSystem.AddEvent s e, none)
  | .addListener l => (EventSystem.AddEventListener s l, none)
  | .dispatchAll =>
    let r := EventSystem.Dispatch s
    ({ s with sEventBus := r.remaining }, some r)
  | .init => (EventSystem.Init s, none)

/-- Run a sequence of API calls from a state. -/
def runAll (s : EventSystemState) : List Op → EventSystemState
  | [] => s
  | op :: ops => runAll (step s op).1 ops

/-- The observable results of a sequence of API calls (the dispatch results,
in order; append-type calls return nothing). -/
def runOutputs (s : EventSystemState) : List Op → List (Option DispatchResult)
  | [] => []
  | op :: ops => (step s op).2 :: runOutputs (step s op).1 ops

/-- The observable part of the `EventSystem` state: the bus contents and the
listener registry. The vector capacity is not observable. -/
def observe (s : EventSystemState) : List (Event × EventType) × List Nat :=
  (s.sEventBus, s.sEventListeners)

/-- A process that has just started: empty bus, empty registry, capacity 0. -/
def initialState : EventSystemState := ⟨[], [], 0⟩

/-- Shorthand for a `KeyPressEvent` with no modifier keys. -/
def kp (n : Int) : Event := .KeyPressEvent n false false false

/-- One listener registered, then four events enqueued, via the public API. -/
def stateFour : EventSystemState :=
  EventSystem.AddEvent
    (EventSystem.AddEvent
      (EventSystem.AddEvent
        (EventSystem.AddEvent
          (EventSystem.AddEventListener initialState 0) (kp 1)) (kp 2))
      (kp 3)) (kp 4)

/-- One listener registered and an empty bus, via the public API. -/
def stateEmptyBus : EventSystemState :=
  EventSystem.AddEventListener initialState 0

/-!
Helper lemmas (shared; not claim theorems).
-/

/-- One API call preserves observational equivalence of states and produces
equal outputs on observationally equal states: no operation reads the
vector capacity. -/
lemma observe_step (s₁ s₂ : EventSystemState) (h : observe s₁ = observe s₂)
    (op : Op) :
    observe (step s₁ op).1 = observe (step s₂ op).1 ∧
      (step s₁ op).2 = (step s₂ op).2 := by
  have hbus : s₁.sEventBus = s₂.sEventBus := congrArg Prod.fst h
  have hls : s₁.sEventListeners = s₂.sEventListeners := congrArg Prod.snd h
  cases op <;>
    simp [step, EventSystem.AddEvent, EventSystem.AddEventListener,
      EventSystem.Init, EventSystem.Dispatch, observe, hbus, hls]

/-- Observationally equal states produce equal outputs and stay
observationally equal under any sequence of API calls. -/
lemma observe_runAll (s₁ s₂ : EventSystemState)
    (h : observe s₁ = observe s₂) :
    ∀ ops : List Op, runOutputs s₁ ops = runOutputs s₂ ops ∧
      observe (runAll s₁ ops) = observe (runAll s₂ ops)
  | [] => ⟨rfl, h⟩
  | op :: ops => by
    obtain ⟨h1, h2⟩ := observe_step s₁ s₂ h op
    obtain ⟨ih1, ih2⟩ := observe_runAll (step s₁ op).1 (step s₂ op).1 h1 ops
    exact ⟨by simp [runOutputs, h2, ih1], by simp [runAll, ih2]⟩

/-- Unfolding equation for the iteration of the dispatch loop that delivers
the front entry: loop bound satisfied, tag wired into the switch, stored
tag matching the stored value. -/
lemma dispatchLoop_cons_deliver (listeners : List Nat) (i : Nat) (e : Event)
    (t : EventType) (rest : List (Event × EventType))
    (hloop : i ≤ rest.length + 2) (hcase : hasDispatchCase t = true)
    (htag : e.GetType = t) :
    dispatchLoop listeners i ((e, t) :: rest) =
      ⟨(dispatchLoop listeners (i + 1) rest).outcome,
        (dispatchLoop listeners (i + 1) rest).remaining,
        (e, t) :: (dispatchLoop listeners (i + 1) rest).dispatched,
        IterateThroughEventListeners listeners e ++
          (dispatchLoop listeners (i + 1) rest).trace⟩ := by
  have hlen : i ≤ rest.length + 1 + 1 := by omega
  simp [dispatchLoop, hlen, hcase, htag]

/-!
Claim theorems.
-/

/-- C1: the claim says that after N enqueues one `Dispatch` invokes every
listener exactly N times, once per event, in FIFO order. The code's loop
bound `i <= sEventBus.size() + 1`, re-evaluated while the queue shrinks,
falsifies this: with one listener and four enqueued events the listener
is invoked only three times (events 1, 2, 3; event 4 is never
delivered). -/
theorem dispatch_four_events_delivers_only_three :
    (EventSystem.Dispatch stateFour).trace = [(0, kp 1), (0, kp 2), (0, kp 3)] ∧
    (EventSystem.Dispatch stateFour).trace.length = 3 := by
  decide

/-- C2: the claim says the bus is empty after `Dispatch`. With four
enqueued events the loop exits normally while one entry is still in the
bus. -/
theorem dispatch_four_events_leaves_bus_nonempty :
    (EventSystem.Dispatch stateFour).remaining =
      [(kp 4, EventType.Type_KeyPress)] ∧
    (EventSystem.Dispatch stateFour).outcome = DispatchOutcome.completed := by
  decide

/-- C3: the claim says `Dispatch` on an empty bus is a no-op with no crash.
In the code the loop condition `0 <= 0 + 1` holds, so the first iteration
reads `sEventBus.front()` on an empty queue (undefined behaviour): the
modelled run ends with the `frontOfEmpty` abnormal outcome, not a clean
no-op. -/
theorem dispatch_empty_bus_reads_front :
    EventSystem.Dispatch stateEmptyBus =
      ⟨DispatchOutcome.frontOfEmpty, [], [], []⟩ := by
  decide

/-- C4: `EventDispatcher(e).Dispatch<T>(func)` calls `func` exactly once,
on the event itself, when `e`'s dynamic tag equals the target static tag,
and on a mismatch calls nothing and leaves the wrapped event unchanged. -/
theorem eventDispatcher_dispatch_iff_tag_matches (e : Event)
    (target : EventType) (func : Event → Event) :
    (e.GetType = target ∧
      EventDispatcher.Dispatch e target func = ([e], func e)) ∨
    (e.GetType ≠ target ∧
      EventDispatcher.Dispatch e target func = ([], e)) := by
  by_cases h : e.GetType = target
  · exact Or.inl ⟨h, by simp [EventDispatcher.Dispatch, h]⟩
  · exact Or.inr ⟨h, by simp [EventDispatcher.Dispatch, h]⟩

/-- Witness for C4 at concrete inputs: a key-press event matched against
the key-press tag invokes the handler once; matched against the
mouse-move tag it invokes nothing and the event is unchanged. -/
theorem eventDispatcher_dispatch_iff_tag_matches_witness :
    EventDispatcher.Dispatch (kp 97) EventType.Type_KeyPress (fun x => x) =
      ([kp 97], kp 97) ∧
    EventDispatcher.Dispatch (kp 97) EventType.Type_MouseMove (fun x => x) =
      ([], kp 97) := by
  constructor
  · rcases eventDispatcher_dispatch_iff_tag_matches (kp 97)
      EventType.Type_KeyPress (fun x => x) with ⟨_, h⟩ | ⟨hn, _⟩
    · exact h
    · exact absurd (by decide) hn
  · rcases eventDispatcher_dispatch_iff_tag_matches (kp 97)
      EventType.Type_MouseMove (fun x => x) with ⟨hn, _⟩ | ⟨_, h⟩
    · exact absurd hn (by decide)
    · exact h

/-- C5: the claim says `ToString` renders each instance's own fields. The
`static std::ostringstream` and once-initialized `static std::string` in
`KeyPressEvent::ToString` falsify this: the first call (key 97) returns
the expected string, but a second instance with key 98, described
afterwards, also returns the key-97 string, although its own rendering
would be the key-98 string. -/
theorem keyPress_toString_second_instance_returns_first_string :
    (Event.KeyPressEvent.ToStringRun ToStringStatics.initial
        97 false false false).2 =
      "[Event:KeyPress]: Key: (97), Control: (0), Shift: (0), Alt: (0)\n" ∧
    (Event.KeyPressEvent.ToStringRun
        (Event.KeyPressEvent.ToStringRun ToStringStatics.initial
          97 false false false).1 98 false false false).2 =
      "[Event:KeyPress]: Key: (97), Control: (0), Shift: (0), Alt: (0)\n" ∧
    keyPressRender 98 false false false =
      "[Event:KeyPress]: Key: (98), Control: (0), Shift: (0), Alt: (0)\n" := by
  refine ⟨rfl, rfl, rfl⟩

/-- C6: when the dispatch loop dequeues an entry whose tag has no `case`
branch in the switch (only the sentinel `Type_None` lacks one), it hits
`default: __debugbreak()` and traps at that point: nothing is delivered
from that iteration on, the entry is not popped, and no further entry is
processed. -/
theorem dispatch_unhandled_tag_traps (listeners : List Nat) (i : Nat)
    (e : Event) (t : EventType) (rest : List (Event × EventType))
    (hcase : hasDispatchCase t = false)
    (hloop : i ≤ rest.length + 2) :
    dispatchLoop listeners i ((e, t) :: rest) =
      ⟨DispatchOutcome.debugBreak, (e, t) :: rest, [], []⟩ := by
  have hlen : i ≤ rest.length + 1 + 1 := by omega
  simp [dispatchLoop, hlen, hcase]

/-- Witness for C6: a plain `IEvent` (tag `Type_None`) at the front of the
bus makes the first loop iteration trap. -/
theorem dispatch_unhandled_tag_traps_witness :
    dispatchLoop [0] 0 [(Event.IEventBase, EventType.Type_None)] =
      ⟨DispatchOutcome.debugBreak, [(Event.IEventBase, EventType.Type_None)],
        [], []⟩ :=
  dispatch_unhandled_tag_traps [0] 0 Event.IEventBase EventType.Type_None []
    (by decide) (by decide)

/-- C7: `AddEvent` appends exactly one entry — the event paired with its
tag — at the tail of the bus, leaves every entry already in the bus
unchanged and in place, and leaves the listener registry untouched. -/
theorem addEvent_appends_tagged_copy_at_tail (s : EventSystemState)
    (e : Event) :
    (EventSystem.AddEvent s e).sEventBus.length = s.sEventBus.length + 1 ∧
    (EventSystem.AddEvent s e).sEventBus.take s.sEventBus.length =
      s.sEventBus ∧
    (EventSystem.AddEvent s e).sEventBus.getLast? = some (e, e.GetType) ∧
    (EventSystem.AddEvent s e).sEventListeners = s.sEventListeners := by
  refine ⟨?_, ?_, ?_, rfl⟩ <;>
    simp [EventSystem.AddEvent]

/-- C8: `AddEventListener` appends the callback at the registry tail, does
not touch the bus, and for every dispatched event the invocation sequence
lists the previously registered listeners first, in their order, with the
new listener last; in general the k-th invocation for an event is by the
k-th registered listener. -/
theorem addEventListener_appends_and_preserves_invocation_order
    (s : EventSystemState) (l : Nat) :
    (EventSystem.AddEventListener s l).sEventListeners =
      s.sEventListeners ++ [l] ∧
    (EventSystem.AddEventListener s l).sEventBus = s.sEventBus ∧
    (∀ e : Event,
      IterateThroughEventListeners
          (EventSystem.AddEventListener s l).sEventListeners e =
        IterateThroughEventListeners s.sEventListeners e ++ [(l, e)]) ∧
    (∀ (listeners : List Nat) (e : Event) (k : Nat),
      (IterateThroughEventListeners listeners e)[k]? =
        listeners[k]?.map (fun x => (x, e))) := by
  refine ⟨rfl, rfl, fun e => ?_, fun listeners e k => ?_⟩ <;>
    simp [EventSystem.AddEventListener, IterateThroughEventListeners]

/-- C9: `Init` only grows the listener vector's capacity: the observable
state (bus and registry) is unchanged, and every sequence of subsequent
API calls produces the same dispatch results and the same observable
states whether or not `Init` was called first. -/
theorem init_has_no_observable_effect (s : EventSystemState) :
    observe (EventSystem.Init s) = observe s ∧
    (∀ ops : List Op,
      runOutputs (EventSystem.Init s) ops = runOutputs s ops) ∧
    (∀ ops : List Op,
      observe (runAll (EventSystem.Init s) ops) = observe (runAll s ops)) := by
  have h : observe (EventSystem.Init s) = observe s := rfl
  exact ⟨h, fun ops => (observe_runAll _ _ h ops).1,
    fun ops => (observe_runAll _ _ h ops).2⟩

/-- C10: within a single `Dispatch` call no queued entry is delivered more
than once: the delivered entries form an initial segment of the bus (each
bus position is processed at most once, front first), each entry value is
delivered no more often than it occurs in the bus, and the invocation
trace is exactly one listener pass per delivered entry. -/
theorem dispatch_no_entry_redelivered (listeners : List Nat) (i : Nat)
    (bus : List (Event × EventType)) :
    (dispatchLoop listeners i bus).dispatched =
      bus.take (dispatchLoop listeners i bus).dispatched.length ∧
    (∀ entry : Event × EventType,
      (dispatchLoop listeners i bus).dispatched.count entry ≤
        bus.count entry) ∧
    (dispatchLoop listeners i bus).trace =
      ((dispatchLoop listeners i bus).dispatched.map
        (fun p => IterateThroughEventListeners listeners p.1)).flatten := by
  induction bus generalizing i with
  | nil =>
    simp only [dispatchLoop]
    split <;> simp
  | cons hd rest ih =>
    obtain ⟨e, t⟩ := hd
    by_cases hlen : i ≤ rest.length + 1 + 1
    · by_cases hc : hasDispatchCase t = true
      · by_cases hg : e.GetType = t
        · obtain ⟨ih1, ih2, ih3⟩ := ih (i + 1)
          rw [dispatchLoop_cons_deliver listeners i e t rest (by omega) hc hg]
          refine ⟨?_, fun entry => ?_, ?_⟩
          · simpa using congrArg (List.cons (e, t)) ih1
          · simpa [List.count_cons] using
              Nat.add_le_add_right (ih2 entry)
                (if (entry : Event × EventType) = (e, t) then 1 else 0)
          · simpa using ih3
        · simp [dispatchLoop, hlen, hc, hg]
      · simp [dispatchLoop, hlen, hc]
    · simp [dispatchLoop, hlen]

end Helios
